import Mathlib

/-!
Shallow embedding of the lecture/link HTTP handlers of the
doc-reader-faculty-server repository (`LectureController` and the response
formatters in `src/utlis/responses.ts`), together with theorems settling the
specification claims about them.

Conventions of the embedding:
* `null`/`undefined` database results and request parameters are `Option`.
* Each Prisma call may throw; a call result is `Except Exn _` and the
  handler-level `try/catch` is the wrapper turning `Except.error` into the
  500 response built inline in every catch block of the source.
* An HTTP response is its status code plus the ordered list of JSON body
  fields produced by `res.status(s).json({...})`.
* Mutating handlers additionally return the list of create/update/delete
  calls they issued to the data store, in order.
-/

/-- Exceptions thrown by data-store calls (the `errorObject` of the catch
blocks). -/
abbrev Exn : Type := String

/-- Decidable equality on call results, used to evaluate concrete stores in
witnesses. -/
instance {ε α : Type} [DecidableEq ε] [DecidableEq α] : DecidableEq (Except ε α) := fun a b =>
  match a, b with
  | .error e, .error f =>
    if h : e = f then .isTrue (by rw [h]) else .isFalse (by intro hc; cases hc; exact h rfl)
  | .error _, .ok _ => .isFalse (by intro hc; cases hc)
  | .ok _, .error _ => .isFalse (by intro hc; cases hc)
  | .ok x, .ok y =>
    if h : x = y then .isTrue (by rw [h]) else .isFalse (by intro hc; cases hc; exact h rfl)

/-- Prisma `UserRole` enum. -/
inductive UserRole
  | Admin
  | Student
  deriving DecidableEq

/-- The resolved caller returned by `AuthController.user`: a role and a year
assignment (`yearId`). -/
structure User where
  id : String
  role : UserRole
  yearId : String
  deriving DecidableEq

/-- A subject row, as included by `findUnique({ include: { subject: true } })`:
it carries the owning `moduleId`. -/
structure Subject where
  id : String
  moduleId : String
  deriving DecidableEq

/-- A lecture row with its included subject. -/
structure Lecture where
  id : String
  subject : Subject
  deriving DecidableEq

/-- A module row: it belongs to a year (`yearId`). Named `ModuleEntity`
because `Module` is taken by the ambient library. -/
structure ModuleEntity where
  id : String
  yearId : String
  deriving DecidableEq

/-- A lecture-link row. -/
structure Link where
  id : String
  lectureId : String
  deriving DecidableEq

/-- Payload accepted by `subjectLecture.update.safeParse`; the zod schema
itself is outside the sources, so the validated data is kept abstract. -/
structure LectureUpdate where
  payload : String
  deriving DecidableEq

/-- Payload accepted by `linkSchema.create.safeParse`. -/
structure LinkCreate where
  payload : String
  deriving DecidableEq

/-- Payload accepted by `linkSchema.update.safeParse`. -/
structure LinkUpdate where
  payload : String
  deriving DecidableEq

/-- One JSON field of a response body. -/
inductive BodyField
  | message (m : String)
  | status (s : Nat)
  | errorObject (e : Exn)
  deriving DecidableEq

/-- An HTTP response: the code passed to `res.status` and the JSON body. -/
structure Resp where
  httpStatus : Nat
  body : List BodyField
  deriving DecidableEq

/-- `send` from `src/utlis/responses.ts`: `res.status(status).json({message,
status})`. The declared signature has no data parameter. -/
def send (message : String) (status : Nat) : Resp :=
  ⟨status, [.message message, .status status]⟩

/-- Call sites such as `send(res, msg, 200, lecture)` apply the 3-parameter
`send` to a fourth argument; JavaScript drops the extra argument, so the
response is exactly `send msg status`. -/
def sendWithData {α : Type} (message : String) (status : Nat) (_data : α) : Resp :=
  send message status

/-- `unauthorized` from `src/utlis/responses.ts`: status 401. -/
def unauthorized (message : String) : Resp :=
  ⟨401, [.message message, .status 401]⟩

/-- `notFound` from `src/utlis/responses.ts`: status 404. -/
def notFound (message : String) : Resp :=
  ⟨404, [.message message, .status 404]⟩

/-- `badRequest` from `src/utlis/responses.ts`: despite its name it calls
`res.status(500)` and puts `status: 500` in the body. -/
def badRequest (message : String) : Resp :=
  ⟨500, [.message message, .status 500]⟩

/-- Modelled from the spec: `validationErrors` is imported from
`utlis/responses` but its definition is not among the sources. Per the spec,
a `ValidationError` (malformed input) is converted to a JSON response with
matching HTTP status, here 400. -/
def validationErrors : Resp :=
  ⟨400, [.message "Validation Error", .status 400]⟩

/-- The response built inline in every catch block:
`res.status(500).json({errorObject, message, status: 500})`. -/
def serverError (e : Exn) : Resp :=
  ⟨500, [.errorObject e, .message "Error - Something Went Wrong.", .status 500]⟩

/-- The data store as seen by `LectureController`: each operation models one
Prisma call and may throw. -/
structure DB where
  findLecture : String → Except Exn (Option Lecture)
  findModule : String → Except Exn (Option ModuleEntity)
  findLink : String → Except Exn (Option Link)
  findLinks : String → Except Exn (List Link)
  updateLectureData : String → LectureUpdate → Except Exn Lecture
  deleteLectureData : String → Except Exn Lecture
  createLectureLink : String → LinkCreate → Except Exn Link
  updateLectureLink : String → LinkUpdate → Except Exn Link
  deleteLectureLink : String → Except Exn Link

/-- A mutation issued to the data store by a handler. -/
inductive Effect
  | updateLecture (id : String) (data : LectureUpdate)
  | deleteLecture (id : String)
  | createLink (lectureId : String) (data : LinkCreate)
  | updateLink (id : String) (data : LinkUpdate)
  | deleteLink (id : String)
  deriving DecidableEq

namespace LectureController

/-- Body of `LectureController.get` (everything inside the `try`). -/
def getBody (db : DB) (user : Option User) (lectureIdParam : Option String) :
    Except Exn Resp :=
  match lectureIdParam with
  | none => .ok (badRequest "Invalid lectureId")
  | some lectureId =>
    match db.findLecture lectureId with
    | .error e => .error e
    | .ok none => .ok (notFound "Lecture doesn\x27t exist.")
    | .ok (some lecture) =>
      match db.findModule lecture.subject.moduleId with
      | .error e => .error e
      | .ok module? =>
        if user.map User.yearId ≠ module?.map ModuleEntity.yearId then
          .ok (unauthorized "Unauthorized")
        else
          .ok (sendWithData ("lectureId [" ++ lectureId ++ "] - Data") 200 lecture)

/-- `LectureController.get`: the body wrapped in the `try/catch`. -/
def get (db : DB) (user : Option User) (lectureIdParam : Option String) : Resp :=
  match getBody db user lectureIdParam with
  | .ok r => r
  | .error e => serverError e

/-- Body of `LectureController.getLinks`. -/
def getLinksBody (db : DB) (user : Option User) (lectureIdParam : Option String) :
    Except Exn Resp :=
  match lectureIdParam with
  | none => .ok (badRequest "Invalid lectureId")
  | some lectureId =>
    match db.findLecture lectureId with
    | .error e => .error e
    | .ok none => .ok (notFound "Lecture doesn\x27t exist.")
    | .ok (some lecture) =>
      match db.findModule lecture.subject.moduleId with
      | .error e => .error e
      | .ok module? =>
        if user.map User.yearId ≠ module?.map ModuleEntity.yearId then
          .ok (unauthorized "Unauthorized")
        else
          match db.findLinks lecture.id with
          | .error e => .error e
          | .ok links =>
            .ok (sendWithData ("lectureId [" ++ lectureId ++ "] - Links") 200 links)

/-- `LectureController.getLinks`: the body wrapped in the `try/catch`. -/
def getLinks (db : DB) (user : Option User) (lectureIdParam : Option String) : Resp :=
  match getLinksBody db user lectureIdParam with
  | .ok r => r
  | .error e => serverError e

/-- Body of `LectureController.updateLecture`. -/
def updateLectureBody (db : DB) (user : Option User) (lectureIdParam : Option String)
    (parsedBody : Option LectureUpdate) : Except Exn (Resp × List Effect) :=
  match user with
  | none => .ok (unauthorized "Unauthorized cannot update a lecture.", [])
  | some u =>
    if u.role ≠ UserRole.Admin then
      .ok (unauthorized "Unauthorized cannot update a lecture.", [])
    else
      match lectureIdParam with
      | none => .ok (badRequest "Invalid lectureId", [])
      | some lectureId =>
        match db.findLecture lectureId with
        | .error e => .error e
        | .ok none => .ok (notFound "Lecture doesn\x27t exist.", [])
        | .ok (some lecture) =>
          match db.findModule lecture.subject.moduleId with
          | .error e => .error e
          | .ok module? =>
            if some u.yearId ≠ module?.map ModuleEntity.yearId then
              .ok (unauthorized "Unauthorized", [])
            else
              match parsedBody with
              | none => .ok (validationErrors, [])
              | some data =>
                match db.updateLectureData lectureId data with
                | .error e => .error e
                | .ok updated =>
                  .ok (sendWithData "Lecture has been updated" 200 updated,
                       [Effect.updateLecture lectureId data])

/-- `LectureController.updateLecture` with its issued mutations. -/
def updateLecture (db : DB) (user : Option User) (lectureIdParam : Option String)
    (parsedBody : Option LectureUpdate) : Resp × List Effect :=
  match updateLectureBody db user lectureIdParam parsedBody with
  | .ok r => r
  | .error e => (serverError e, [])

/-- Body of `LectureController.deleteLecture`. -/
def deleteLectureBody (db : DB) (user : Option User) (lectureIdParam : Option String) :
    Except Exn (Resp × List Effect) :=
  match user with
  | none => .ok (unauthorized "Unauthorized cannot delete a lecture.", [])
  | some u =>
    if u.role ≠ UserRole.Admin then
      .ok (unauthorized "Unauthorized cannot delete a lecture.", [])
    else
      match lectureIdParam with
      | none => .ok (badRequest "Invalid lectureId", [])
      | some lectureId =>
        match db.findLecture lectureId with
        | .error e => .error e
        | .ok none => .ok (notFound "Lecture doesn\x27t exist.", [])
        | .ok (some lecture) =>
          match db.findModule lecture.subject.moduleId with
          | .error e => .error e
          | .ok module? =>
            if some u.yearId ≠ module?.map ModuleEntity.yearId then
              .ok (unauthorized "Unauthorized", [])
            else
              match db.deleteLectureData lectureId with
              | .error e => .error e
              | .ok deleted =>
                .ok (sendWithData "Lecture has been deleted" 200 deleted,
                     [Effect.deleteLecture lectureId])

/-- `LectureController.deleteLecture` with its issued mutations. -/
def deleteLecture (db : DB) (user : Option User) (lectureIdParam : Option String) :
    Resp × List Effect :=
  match deleteLectureBody db user lectureIdParam with
  | .ok r => r
  | .error e => (serverError e, [])

/-- Body of `LectureController.createLink`. -/
def createLinkBody (db : DB) (user : Option User) (lectureIdParam : Option String)
    (parsedBody : Option LinkCreate) : Except Exn (Resp × List Effect) :=
  match user with
  | none => .ok (unauthorized "Unauthorized cannot create a link.", [])
  | some u =>
    if u.role ≠ UserRole.Admin then
      .ok (unauthorized "Unauthorized cannot create a link.", [])
    else
      match lectureIdParam with
      | none => .ok (badRequest "Invalid lectureId", [])
      | some lectureId =>
        match db.findLecture lectureId with
        | .error e => .error e
        | .ok none => .ok (notFound "Lecture doesn\x27t exist.", [])
        | .ok (some lecture) =>
          match db.findModule lecture.subject.moduleId with
          | .error e => .error e
          | .ok module? =>
            if some u.yearId ≠ module?.map ModuleEntity.yearId then
              .ok (unauthorized "Unauthorized", [])
            else
              match parsedBody with
              | none => .ok (validationErrors, [])
              | some data =>
                match db.createLectureLink lecture.id data with
                | .error e => .error e
                | .ok created =>
                  .ok (sendWithData "Lecture Link has been created" 201 created,
                       [Effect.createLink lecture.id data])

/-- `LectureController.createLink` with its issued mutations. -/
def createLink (db : DB) (user : Option User) (lectureIdParam : Option String)
    (parsedBody : Option LinkCreate) : Resp × List Effect :=
  match createLinkBody db user lectureIdParam parsedBody with
  | .ok r => r
  | .error e => (serverError e, [])

/-- Body of `LectureController.updateLink`. In the source both lookups (the
lecture and the link) are awaited before either existence check runs. -/
def updateLinkBody (db : DB) (user : Option User) (lectureIdParam linkIdParam : Option String)
    (parsedBody : Option LinkUpdate) : Except Exn (Resp × List Effect) :=
  match user with
  | none => .ok (unauthorized "Unauthorized cannot update a link.", [])
  | some u =>
    if u.role ≠ UserRole.Admin then
      .ok (unauthorized "Unauthorized cannot update a link.", [])
    else
      match lectureIdParam with
      | none => .ok (badRequest "Invalid lectureId", [])
      | some lectureId =>
        match linkIdParam with
        | none => .ok (badRequest "Invalid linkId", [])
        | some linkId =>
          match db.findLecture lectureId with
          | .error e => .error e
          | .ok lecture? =>
            match db.findLink linkId with
            | .error e => .error e
            | .ok link? =>
              match lecture? with
              | none => .ok (notFound "Lecture doesn\x27t exist.", [])
              | some lecture =>
                match link? with
                | none => .ok (notFound "Link doesn\x27t exist.", [])
                | some link =>
                  match db.findModule lecture.subject.moduleId with
                  | .error e => .error e
                  | .ok module? =>
                    if some u.yearId ≠ module?.map ModuleEntity.yearId then
                      .ok (unauthorized "Unauthorized", [])
                    else
                      match parsedBody with
                      | none => .ok (validationErrors, [])
                      | some data =>
                        match db.updateLectureLink link.id data with
                        | .error e => .error e
                        | .ok updated =>
                          .ok (sendWithData "Link has been updated" 200 updated,
                               [Effect.updateLink link.id data])

/-- `LectureController.updateLink` with its issued mutations. -/
def updateLink (db : DB) (user : Option User) (lectureIdParam linkIdParam : Option String)
    (parsedBody : Option LinkUpdate) : Resp × List Effect :=
  match updateLinkBody db user lectureIdParam linkIdParam parsedBody with
  | .ok r => r
  | .error e => (serverError e, [])

/-- Body of `LectureController.deleteLink`. -/
def deleteLinkBody (db : DB) (user : Option User) (lectureIdParam linkIdParam : Option String) :
    Except Exn (Resp × List Effect) :=
  match user with
  | none => .ok (unauthorized "Unauthorized cannot delete a link.", [])
  | some u =>
    if u.role ≠ UserRole.Admin then
      .ok (unauthorized "Unauthorized cannot delete a link.", [])
    else
      match lectureIdParam with
      | none => .ok (badRequest "Invalid lectureId", [])
      | some lectureId =>
        match linkIdParam with
        | none => .ok (badRequest "Invalid linkId", [])
        | some linkId =>
          match db.findLecture lectureId with
          | .error e => .error e
          | .ok lecture? =>
            match db.findLink linkId with
            | .error e => .error e
            | .ok link? =>
              match lecture? with
              | none => .ok (notFound "Lecture doesn\x27t exist.", [])
              | some lecture =>
                match link? with
                | none => .ok (notFound "Link doesn\x27t exist.", [])
                | some link =>
                  match db.findModule lecture.subject.moduleId with
                  | .error e => .error e
                  | .ok module? =>
                    if some u.yearId ≠ module?.map ModuleEntity.yearId then
                      .ok (unauthorized "Unauthorized", [])
                    else
                      match db.deleteLectureLink link.id with
                      | .error e => .error e
                      | .ok deleted =>
                        .ok (sendWithData "Link has been deleted" 200 deleted,
                             [Effect.deleteLink link.id])

/-- `LectureController.deleteLink` with its issued mutations. -/
def deleteLink (db : DB) (user : Option User) (lectureIdParam linkIdParam : Option String) :
    Resp × List Effect :=
  match deleteLinkBody db user lectureIdParam linkIdParam with
  | .ok r => r
  | .error e => (serverError e, [])

end LectureController

/-! Concrete fixtures used by counterexamples and witnesses. -/

/-- A subject belonging to module `M1`. -/
def subj1 : Subject := ⟨"S1", "M1"⟩

/-- A lecture belonging to `subj1`. -/
def lec1 : Lecture := ⟨"L1", subj1⟩

/-- The module owning `subj1`; it belongs to year `Y2`. -/
def mod1 : ModuleEntity := ⟨"M1", "Y2"⟩

/-- A link belonging to `lec1`. -/
def link1 : Link := ⟨"K1", "L1"⟩

/-- A store where `lec1`, `mod1` and `link1` exist and every call succeeds. -/
def dbFull : DB where
  findLecture := fun i => .ok (if i = "L1" then some lec1 else none)
  findModule := fun i => .ok (if i = "M1" then some mod1 else none)
  findLink := fun i => .ok (if i = "K1" then some link1 else none)
  findLinks := fun _ => .ok [link1]
  updateLectureData := fun _ _ => .ok lec1
  deleteLectureData := fun _ => .ok lec1
  createLectureLink := fun _ _ => .ok link1
  updateLectureLink := fun _ _ => .ok link1
  deleteLectureLink := fun _ => .ok link1

/-- Like `dbFull`, but the module lookup finds nothing. -/
def dbNoModule : DB := { dbFull with findModule := fun _ => .ok none }

/-- Like `dbFull`, but the lecture lookup throws. -/
def dbThrows : DB := { dbFull with findLecture := fun _ => .error "boom" }

/-- A student enrolled in year `Y1` (differing from the year of `mod1`). -/
def student1 : User := ⟨"U1", UserRole.Student, "Y1"⟩

/-- A student enrolled in year `Y2` (the year of `mod1`). -/
def student2 : User := ⟨"U2", UserRole.Student, "Y2"⟩

/-- An admin enrolled in year `Y2` (the year of `mod1`). -/
def admin2 : User := ⟨"A2", UserRole.Admin, "Y2"⟩

/-- An admin enrolled in year `Y1` (differing from the year of `mod1`). -/
def admin1 : User := ⟨"A1", UserRole.Admin, "Y1"⟩

/-- The module owning `subj1` in the year-2 store: its year is `2`. -/
def mod2 : ModuleEntity := ⟨"M1", "2"⟩

/-- Like `dbFull`, but the module belongs to year `2`. -/
def dbYear2 : DB := { dbFull with findModule := fun i => .ok (if i = "M1" then some mod2 else none) }

/-- An admin enrolled in year `2`. -/
def adminYear2 : User := ⟨"A3", UserRole.Admin, "2"⟩

/-- C5: `send`, `unauthorized`, `notFound` and `badRequest` each produce a
JSON envelope with exactly the fields `message` and `status`, the `status`
field equal to the HTTP status code of the response; resource data passed as
an extra argument to `send` is dropped and does not appear in the body. -/
theorem formatters_envelope (m : String) (s : Nat) (α : Type) (x : α) :
    send m s = ⟨s, [.message m, .status s]⟩ ∧
    sendWithData m s x = send m s ∧
    unauthorized m = ⟨401, [.message m, .status 401]⟩ ∧
    notFound m = ⟨404, [.message m, .status 404]⟩ ∧
    badRequest m = ⟨500, [.message m, .status 500]⟩ :=
  ⟨rfl, rfl, rfl, rfl, rfl⟩

/-- C6: at the failing input (missing `lectureId` parameter), `get` responds
via `badRequest`, whose HTTP status is 500 — the status of an internal
error, not of a validation failure (400): the code maps `ValidationError`
for malformed parameters to the same status as `InternalError`. -/
theorem missing_param_gets_500 :
    LectureController.get dbFull (some student1) none = badRequest "Invalid lectureId" ∧
    (badRequest "Invalid lectureId").httpStatus = 500 ∧
    (badRequest "Invalid lectureId").httpStatus ≠ 400 :=
  ⟨rfl, rfl, by decide⟩

/-- C2: a resolved caller whose role is not `Admin` gets 401 Unauthorized
from every mutating handler, whatever the store contents (hence regardless
of any year match), and no mutation is issued. -/
theorem non_admin_mutations_unauthorized (db : DB) (u : User)
    (p q : Option String) (b : Option LectureUpdate) (c : Option LinkCreate)
    (d : Option LinkUpdate) (h : u.role ≠ UserRole.Admin) :
    LectureController.updateLecture db (some u) p b
      = (unauthorized "Unauthorized cannot update a lecture.", []) ∧
    LectureController.deleteLecture db (some u) p
      = (unauthorized "Unauthorized cannot delete a lecture.", []) ∧
    LectureController.createLink db (some u) p c
      = (unauthorized "Unauthorized cannot create a link.", []) ∧
    LectureController.updateLink db (some u) p q d
      = (unauthorized "Unauthorized cannot update a link.", []) ∧
    LectureController.deleteLink db (some u) p q
      = (unauthorized "Unauthorized cannot delete a link.", []) := by
  simp [LectureController.updateLecture, LectureController.updateLectureBody,
        LectureController.deleteLecture, LectureController.deleteLectureBody,
        LectureController.createLink, LectureController.createLinkBody,
        LectureController.updateLink, LectureController.updateLinkBody,
        LectureController.deleteLink, LectureController.deleteLinkBody, h]

/-- Closed instance of the C2 theorem: a year-1 student calling each
mutating handler on the fully populated store. -/
theorem non_admin_mutations_unauthorized_witness :
    LectureController.updateLecture dbFull (some student1) (some "L1") none
      = (unauthorized "Unauthorized cannot update a lecture.", []) ∧
    LectureController.deleteLecture dbFull (some student1) (some "L1")
      = (unauthorized "Unauthorized cannot delete a lecture.", []) ∧
    LectureController.createLink dbFull (some student1) (some "L1") none
      = (unauthorized "Unauthorized cannot create a link.", []) ∧
    LectureController.updateLink dbFull (some student1) (some "L1") (some "K1") none
      = (unauthorized "Unauthorized cannot update a link.", []) ∧
    LectureController.deleteLink dbFull (some student1) (some "L1") (some "K1")
      = (unauthorized "Unauthorized cannot delete a link.", []) :=
  non_admin_mutations_unauthorized dbFull student1 (some "L1") (some "K1")
    none none none (by decide)

/-- C3: the Admin-role check runs before the ownership (year) check: in a
state where the year check would also fail (module present, year mismatch),
a non-Admin caller receives the role-check rejection message, not the
ownership rejection `"Unauthorized"`. -/
theorem role_check_before_ownership (db : DB) (u : User) (lid kid : String)
    (lec : Lecture) (link : Link) (mdl : ModuleEntity)
    (b : Option LectureUpdate) (c : Option LinkCreate) (d : Option LinkUpdate)
    (hrole : u.role ≠ UserRole.Admin)
    (hlec : db.findLecture lid = .ok (some lec))
    (hlink : db.findLink kid = .ok (some link))
    (hmod : db.findModule lec.subject.moduleId = .ok (some mdl))
    (hyear : u.yearId ≠ mdl.yearId) :
    ((LectureController.updateLecture db (some u) (some lid) b).1
       = unauthorized "Unauthorized cannot update a lecture." ∧
     (LectureController.deleteLecture db (some u) (some lid)).1
       = unauthorized "Unauthorized cannot delete a lecture." ∧
     (LectureController.createLink db (some u) (some lid) c).1
       = unauthorized "Unauthorized cannot create a link." ∧
     (LectureController.updateLink db (some u) (some lid) (some kid) d).1
       = unauthorized "Unauthorized cannot update a link." ∧
     (LectureController.deleteLink db (some u) (some lid) (some kid)).1
       = unauthorized "Unauthorized cannot delete a link.") ∧
    (unauthorized "Unauthorized cannot update a lecture." ≠ unauthorized "Unauthorized" ∧
     unauthorized "Unauthorized cannot delete a lecture." ≠ unauthorized "Unauthorized" ∧
     unauthorized "Unauthorized cannot create a link." ≠ unauthorized "Unauthorized" ∧
     unauthorized "Unauthorized cannot update a link." ≠ unauthorized "Unauthorized" ∧
     unauthorized "Unauthorized cannot delete a link." ≠ unauthorized "Unauthorized") := by
  constructor
  · simp [LectureController.updateLecture, LectureController.updateLectureBody,
          LectureController.deleteLecture, LectureController.deleteLectureBody,
          LectureController.createLink, LectureController.createLinkBody,
          LectureController.updateLink, LectureController.updateLinkBody,
          LectureController.deleteLink, LectureController.deleteLinkBody, hrole]
  · exact ⟨by decide, by decide, by decide, by decide, by decide⟩

/-- Closed instance of the C3 theorem: a year-1 student against the lecture
whose module belongs to year `Y2`. -/
theorem role_check_before_ownership_witness :
    (LectureController.updateLecture dbFull (some student1) (some "L1") none).1
      = unauthorized "Unauthorized cannot update a lecture." ∧
    (unauthorized "Unauthorized cannot update a lecture." ≠ unauthorized "Unauthorized") :=
  have h := role_check_before_ownership dbFull student1 "L1" "K1" lec1 link1 mod1
    none none none (by decide) (by decide) (by decide) (by decide) (by decide)
  ⟨h.1.1, h.2.1⟩

/-- C1 counterexample: the lecture exists, the module lookup returns none,
and a student caller with a year gets 401 Unauthorized — not the 404
NotFound response the claim requires. -/
theorem missing_module_counterexample :
    LectureController.get dbNoModule (some student1) (some "L1")
      = unauthorized "Unauthorized" ∧
    (LectureController.get dbNoModule (some student1) (some "L1")).httpStatus = 401 ∧
    (LectureController.get dbNoModule (some student1) (some "L1")).httpStatus ≠ 404 := by
  refine ⟨rfl, rfl, by decide⟩

/-- C1 amended: when the target lecture (and link) exists but the module
lookup returns no module, no handler answers NotFound for the missing
module: for every resolved caller, whatever the role, each of the seven
handlers answers 401 Unauthorized — the read handlers and (for Admin
callers) the mutating handlers through the comparison of the present
`yearId` against the absent module year, non-Admin callers of the mutating
handlers through the earlier role rejection. -/
theorem missing_module_yields_unauthorized (db : DB) (u : User) (lid kid : String)
    (lec : Lecture) (link : Link)
    (b : Option LectureUpdate) (c : Option LinkCreate) (d : Option LinkUpdate)
    (hlec : db.findLecture lid = .ok (some lec))
    (hlink : db.findLink kid = .ok (some link))
    (hmod : db.findModule lec.subject.moduleId = .ok none) :
    LectureController.get db (some u) (some lid) = unauthorized "Unauthorized" ∧
    LectureController.getLinks db (some u) (some lid) = unauthorized "Unauthorized" ∧
    (LectureController.updateLecture db (some u) (some lid) b).1.httpStatus = 401 ∧
    (LectureController.deleteLecture db (some u) (some lid)).1.httpStatus = 401 ∧
    (LectureController.createLink db (some u) (some lid) c).1.httpStatus = 401 ∧
    (LectureController.updateLink db (some u) (some lid) (some kid) d).1.httpStatus = 401 ∧
    (LectureController.deleteLink db (some u) (some lid) (some kid)).1.httpStatus = 401 := by
  by_cases hr : u.role = UserRole.Admin <;>
    simp [LectureController.get, LectureController.getBody,
          LectureController.getLinks, LectureController.getLinksBody,
          LectureController.updateLecture, LectureController.updateLectureBody,
          LectureController.deleteLecture, LectureController.deleteLectureBody,
          LectureController.createLink, LectureController.createLinkBody,
          LectureController.updateLink, LectureController.updateLinkBody,
          LectureController.deleteLink, LectureController.deleteLinkBody,
          unauthorized, hr, hlec, hlink, hmod]

/-- Closed instance of the C1 amended theorem: a student caller (year
present, non-Admin) on the store whose module lookup finds nothing gets 401
from every handler, read handlers included. -/
theorem missing_module_yields_unauthorized_witness :
    LectureController.get dbNoModule (some student1) (some "L1")
      = unauthorized "Unauthorized" ∧
    LectureController.getLinks dbNoModule (some student1) (some "L1")
      = unauthorized "Unauthorized" ∧
    (LectureController.updateLecture dbNoModule (some student1) (some "L1") none).1.httpStatus
      = 401 ∧
    (LectureController.deleteLink dbNoModule (some student1) (some "L1") (some "K1")).1.httpStatus
      = 401 :=
  have h := missing_module_yields_unauthorized dbNoModule student1 "L1" "K1" lec1 link1
    none none none (by decide) (by decide) (by decide)
  ⟨h.1, h.2.1, h.2.2.1, h.2.2.2.2.2.2⟩

/-- C4: for a student reading an existing lecture whose owning module
exists, the year gate decides the request: differing years give 401
Unauthorized, equal years give the 200 success response carrying the data
argument. -/
theorem student_read_year_gate (db : DB) (u : User) (lid : String)
    (lec : Lecture) (mdl : ModuleEntity) (links : List Link)
    (hrole : u.role = UserRole.Student)
    (hlec : db.findLecture lid = .ok (some lec))
    (hmod : db.findModule lec.subject.moduleId = .ok (some mdl))
    (hlinks : db.findLinks lec.id = .ok links) :
    (u.yearId ≠ mdl.yearId →
       LectureController.get db (some u) (some lid) = unauthorized "Unauthorized" ∧
       LectureController.getLinks db (some u) (some lid) = unauthorized "Unauthorized") ∧
    (u.yearId = mdl.yearId →
       LectureController.get db (some u) (some lid)
         = sendWithData ("lectureId [" ++ lid ++ "] - Data") 200 lec ∧
       LectureController.getLinks db (some u) (some lid)
         = sendWithData ("lectureId [" ++ lid ++ "] - Links") 200 links) := by
  constructor
  · intro hne
    simp [LectureController.get, LectureController.getBody,
          LectureController.getLinks, LectureController.getLinksBody,
          hlec, hmod, hne]
  · intro heq
    simp [LectureController.get, LectureController.getBody,
          LectureController.getLinks, LectureController.getLinksBody,
          hlec, hmod, hlinks, heq]

/-- Closed instance of the C4 theorem: the year-1 student is rejected with
401 and the year-2 student receives the 200 responses, on the same store. -/
theorem student_read_year_gate_witness :
    (LectureController.get dbFull (some student1) (some "L1")
       = unauthorized "Unauthorized" ∧
     LectureController.getLinks dbFull (some student1) (some "L1")
       = unauthorized "Unauthorized") ∧
    (LectureController.get dbFull (some student2) (some "L1")
       = sendWithData ("lectureId [" ++ "L1" ++ "] - Data") 200 lec1 ∧
     LectureController.getLinks dbFull (some student2) (some "L1")
       = sendWithData ("lectureId [" ++ "L1" ++ "] - Links") 200 [link1]) :=
  ⟨(student_read_year_gate dbFull student1 "L1" lec1 mod1 [link1]
      rfl (by decide) (by decide) (by decide)).1 (by decide),
   (student_read_year_gate dbFull student2 "L1" lec1 mod1 [link1]
      rfl (by decide) (by decide) (by decide)).2 (by decide)⟩

/-- C8: an Admin of year `2` updating an existing lecture whose owning
module is of year `2`, with a body that passes schema validation, gets the
200 success response and exactly one update call is issued to the store. -/
theorem admin_matching_year_update_succeeds (db : DB) (u : User) (lid : String)
    (lec : Lecture) (mdl : ModuleEntity) (data : LectureUpdate) (updated : Lecture)
    (hadmin : u.role = UserRole.Admin)
    (hyear : u.yearId = "2") (hmyear : mdl.yearId = "2")
    (hlec : db.findLecture lid = .ok (some lec))
    (hmod : db.findModule lec.subject.moduleId = .ok (some mdl))
    (hupd : db.updateLectureData lid data = .ok updated) :
    LectureController.updateLecture db (some u) (some lid) (some data)
      = (sendWithData "Lecture has been updated" 200 updated,
         [Effect.updateLecture lid data]) := by
  simp [LectureController.updateLecture, LectureController.updateLectureBody,
        hadmin, hyear, hmyear, hlec, hmod, hupd]

/-- Closed instance of the C8 theorem on the year-2 store. -/
theorem admin_matching_year_update_succeeds_witness :
    LectureController.updateLecture dbYear2 (some adminYear2) (some "L1") (some ⟨"body"⟩)
      = (sendWithData "Lecture has been updated" 200 lec1,
         [Effect.updateLecture "L1" ⟨"body"⟩]) :=
  admin_matching_year_update_succeeds dbYear2 adminYear2 "L1" lec1 mod2 ⟨"body"⟩ lec1
    rfl rfl rfl (by decide) (by decide) (by decide)

/-- C9: with an unresolved caller (so `user?.yearId` is absent) and a module
lookup returning nothing (so `module?.yearId` is absent), the strict
inequality comparison treats the two absent values as equal, and the read
handlers proceed to the 200 success responses instead of Unauthorized. -/
theorem absent_years_compare_equal (db : DB) (lid : String) (lec : Lecture)
    (links : List Link)
    (hlec : db.findLecture lid = .ok (some lec))
    (hmod : db.findModule lec.subject.moduleId = .ok none)
    (hlinks : db.findLinks lec.id = .ok links) :
    LectureController.get db none (some lid)
      = sendWithData ("lectureId [" ++ lid ++ "] - Data") 200 lec ∧
    LectureController.getLinks db none (some lid)
      = sendWithData ("lectureId [" ++ lid ++ "] - Links") 200 links := by
  simp [LectureController.get, LectureController.getBody,
        LectureController.getLinks, LectureController.getLinksBody,
        hlec, hmod, hlinks]

/-- Closed instance of the C9 theorem on the store without the module. -/
theorem absent_years_compare_equal_witness :
    LectureController.get dbNoModule none (some "L1")
      = sendWithData ("lectureId [" ++ "L1" ++ "] - Data") 200 lec1 ∧
    LectureController.getLinks dbNoModule none (some "L1")
      = sendWithData ("lectureId [" ++ "L1" ++ "] - Links") 200 [link1] :=
  absent_years_compare_equal dbNoModule "L1" lec1 [link1]
    (by decide) (by decide) (by decide)

/-- C7: every handler is the `try` body wrapped by a catch that turns any
thrown exception into the inline 500 response; no exception escapes (each
handler is a total function into responses by construction). -/
theorem exceptions_caught_500 (db : DB) (user : Option User) (p q : Option String)
    (b : Option LectureUpdate) (c : Option LinkCreate) (d : Option LinkUpdate)
    (e : Exn) :
    (LectureController.getBody db user p = .error e →
       LectureController.get db user p = serverError e) ∧
    (LectureController.getLinksBody db user p = .error e →
       LectureController.getLinks db user p = serverError e) ∧
    (LectureController.updateLectureBody db user p b = .error e →
       LectureController.updateLecture db user p b = (serverError e, [])) ∧
    (LectureController.deleteLectureBody db user p = .error e →
       LectureController.deleteLecture db user p = (serverError e, [])) ∧
    (LectureController.createLinkBody db user p c = .error e →
       LectureController.createLink db user p c = (serverError e, [])) ∧
    (LectureController.updateLinkBody db user p q d = .error e →
       LectureController.updateLink db user p q d = (serverError e, [])) ∧
    (LectureController.deleteLinkBody db user p q = .error e →
       LectureController.deleteLink db user p q = (serverError e, [])) ∧
    (serverError e).httpStatus = 500 := by
  refine ⟨?_, ?_, ?_, ?_, ?_, ?_, ?_, rfl⟩ <;> intro h
  · simp [LectureController.get, h]
  · simp [LectureController.getLinks, h]
  · simp [LectureController.updateLecture, h]
  · simp [LectureController.deleteLecture, h]
  · simp [LectureController.createLink, h]
  · simp [LectureController.updateLink, h]
  · simp [LectureController.deleteLink, h]

/-- Closed instance of the C7 theorem: on the store whose lecture lookup
throws `"boom"`, every handler answers the 500 catch response. -/
theorem exceptions_caught_500_witness :
    LectureController.get dbThrows (some admin1) (some "L1") = serverError "boom" ∧
    LectureController.getLinks dbThrows (some admin1) (some "L1") = serverError "boom" ∧
    LectureController.updateLecture dbThrows (some admin1) (some "L1") none
      = (serverError "boom", []) ∧
    LectureController.deleteLecture dbThrows (some admin1) (some "L1")
      = (serverError "boom", []) ∧
    LectureController.createLink dbThrows (some admin1) (some "L1") none
      = (serverError "boom", []) ∧
    LectureController.updateLink dbThrows (some admin1) (some "L1") (some "K1") none
      = (serverError "boom", []) ∧
    LectureController.deleteLink dbThrows (some admin1) (some "L1") (some "K1")
      = (serverError "boom", []) :=
  have h := exceptions_caught_500 dbThrows (some admin1) (some "L1") (some "K1")
    none none none "boom"
  ⟨h.1 (by decide), h.2.1 (by decide), h.2.2.1 (by decide), h.2.2.2.1 (by decide),
   h.2.2.2.2.1 (by decide), h.2.2.2.2.2.1 (by decide), h.2.2.2.2.2.2.1 (by decide)⟩

/-- Helper for C10: a successful run of the updateLecture body either issued
no mutation or produced the 200 success response. -/
theorem updateLectureBody_effects (db : DB) (user : Option User) (p : Option String)
    (b : Option LectureUpdate) (rp : Resp × List Effect)
    (h : LectureController.updateLectureBody db user p b = .ok rp) :
    rp.2 = [] ∨ rp.1.httpStatus = 200 := by
  unfold LectureController.updateLectureBody at h
  repeat' split at h
  all_goals simp_all [unauthorized, notFound, badRequest, validationErrors,
    sendWithData, send]
  all_goals (cases h; simp [sendWithData, send])

/-- Helper for C10: same statement for the deleteLecture body. -/
theorem deleteLectureBody_effects (db : DB) (user : Option User) (p : Option String)
    (rp : Resp × List Effect)
    (h : LectureController.deleteLectureBody db user p = .ok rp) :
    rp.2 = [] ∨ rp.1.httpStatus = 200 := by
  unfold LectureController.deleteLectureBody at h
  repeat' split at h
  all_goals simp_all [unauthorized, notFound, badRequest, validationErrors,
    sendWithData, send]
  all_goals (cases h; simp [sendWithData, send])

/-- Helper for C10: same statement for the createLink body, with 201 as the
success status. -/
theorem createLinkBody_effects (db : DB) (user : Option User) (p : Option String)
    (c : Option LinkCreate) (rp : Resp × List Effect)
    (h : LectureController.createLinkBody db user p c = .ok rp) :
    rp.2 = [] ∨ rp.1.httpStatus = 201 := by
  unfold LectureController.createLinkBody at h
  repeat' split at h
  all_goals simp_all [unauthorized, notFound, badRequest, validationErrors,
    sendWithData, send]
  all_goals (cases h; simp [sendWithData, send])

/-- Helper for C10: same statement for the updateLink body. -/
theorem updateLinkBody_effects (db : DB) (user : Option User) (p q : Option String)
    (d : Option LinkUpdate) (rp : Resp × List Effect)
    (h : LectureController.updateLinkBody db user p q d = .ok rp) :
    rp.2 = [] ∨ rp.1.httpStatus = 200 := by
  unfold LectureController.updateLinkBody at h
  repeat' split at h
  all_goals simp_all [unauthorized, notFound, badRequest, validationErrors,
    sendWithData, send]
  all_goals (cases h; simp [sendWithData, send])

/-- Helper for C10: same statement for the deleteLink body. -/
theorem deleteLinkBody_effects (db : DB) (user : Option User) (p q : Option String)
    (rp : Resp × List Effect)
    (h : LectureController.deleteLinkBody db user p q = .ok rp) :
    rp.2 = [] ∨ rp.1.httpStatus = 200 := by
  unfold LectureController.deleteLinkBody at h
  repeat' split at h
  all_goals simp_all [unauthorized, notFound, badRequest, validationErrors,
    sendWithData, send]
  all_goals (cases h; simp [sendWithData, send])

/-- C10: whenever a mutating handler returns an error response — 400
(validation), 401 (unauthorized), 404 (not found) or 500 (the `badRequest`
formatter or a caught exception) — it issued no create, update or delete
call to the store. -/
theorem error_responses_no_effects (db : DB) (user : Option User)
    (p q : Option String) (b : Option LectureUpdate) (c : Option LinkCreate)
    (d : Option LinkUpdate) :
    (((LectureController.updateLecture db user p b).1.httpStatus = 400 ∨
      (LectureController.updateLecture db user p b).1.httpStatus = 401 ∨
      (LectureController.updateLecture db user p b).1.httpStatus = 404 ∨
      (LectureController.updateLecture db user p b).1.httpStatus = 500) →
      (LectureController.updateLecture db user p b).2 = []) ∧
    (((LectureController.deleteLecture db user p).1.httpStatus = 400 ∨
      (LectureController.deleteLecture db user p).1.httpStatus = 401 ∨
      (LectureController.deleteLecture db user p).1.httpStatus = 404 ∨
      (LectureController.deleteLecture db user p).1.httpStatus = 500) →
      (LectureController.deleteLecture db user p).2 = []) ∧
    (((LectureController.createLink db user p c).1.httpStatus = 400 ∨
      (LectureController.createLink db user p c).1.httpStatus = 401 ∨
      (LectureController.createLink db user p c).1.httpStatus = 404 ∨
      (LectureController.createLink db user p c).1.httpStatus = 500) →
      (LectureController.createLink db user p c).2 = []) ∧
    (((LectureController.updateLink db user p q d).1.httpStatus = 400 ∨
      (LectureController.updateLink db user p q d).1.httpStatus = 401 ∨
      (LectureController.updateLink db user p q d).1.httpStatus = 404 ∨
      (LectureController.updateLink db user p q d).1.httpStatus = 500) →
      (LectureController.updateLink db user p q d).2 = []) ∧
    (((LectureController.deleteLink db user p q).1.httpStatus = 400 ∨
      (LectureController.deleteLink db user p q).1.httpStatus = 401 ∨
      (LectureController.deleteLink db user p q).1.httpStatus = 404 ∨
      (LectureController.deleteLink db user p q).1.httpStatus = 500) →
      (LectureController.deleteLink db user p q).2 = []) := by
  refine ⟨?_, ?_, ?_, ?_, ?_⟩ <;> intro h
  · cases hb : LectureController.updateLectureBody db user p b with
    | error e => simp [LectureController.updateLecture, hb]
    | ok rp =>
      rcases updateLectureBody_effects db user p b rp hb with h2 | h2
      · simpa [LectureController.updateLecture, hb] using h2
      · simp [LectureController.updateLecture, hb] at h
        omega
  · cases hb : LectureController.deleteLectureBody db user p with
    | error e => simp [LectureController.deleteLecture, hb]
    | ok rp =>
      rcases deleteLectureBody_effects db user p rp hb with h2 | h2
      · simpa [LectureController.deleteLecture, hb] using h2
      · simp [LectureController.deleteLecture, hb] at h
        omega
  · cases hb : LectureController.createLinkBody db user p c with
    | error e => simp [LectureController.createLink, hb]
    | ok rp =>
      rcases createLinkBody_effects db user p c rp hb with h2 | h2
      · simpa [LectureController.createLink, hb] using h2
      · simp [LectureController.createLink, hb] at h
        omega
  · cases hb : LectureController.updateLinkBody db user p q d with
    | error e => simp [LectureController.updateLink, hb]
    | ok rp =>
      rcases updateLinkBody_effects db user p q d rp hb with h2 | h2
      · simpa [LectureController.updateLink, hb] using h2
      · simp [LectureController.updateLink, hb] at h
        omega
  · cases hb : LectureController.deleteLinkBody db user p q with
    | error e => simp [LectureController.deleteLink, hb]
    | ok rp =>
      rcases deleteLinkBody_effects db user p q rp hb with h2 | h2
      · simpa [LectureController.deleteLink, hb] using h2
      · simp [LectureController.deleteLink, hb] at h
        omega

/-- Closed instance of the C10 theorem: a non-admin caller draws a 401 from
every mutating handler, and each handler issued no mutation. -/
theorem error_responses_no_effects_witness :
    (LectureController.updateLecture dbFull (some student1) (some "L1") none).2 = [] ∧
    (LectureController.deleteLecture dbFull (some student1) (some "L1")).2 = [] ∧
    (LectureController.createLink dbFull (some student1) (some "L1") none).2 = [] ∧
    (LectureController.updateLink dbFull (some student1) (some "L1") (some "K1") none).2 = [] ∧
    (LectureController.deleteLink dbFull (some student1) (some "L1") (some "K1")).2 = [] :=
  have h := error_responses_no_effects dbFull (some student1) (some "L1") (some "K1")
    none none none
  ⟨h.1 (by decide), h.2.1 (by decide), h.2.2.1 (by decide),
   h.2.2.2.1 (by decide), h.2.2.2.2 (by decide)⟩
